import Mathlib

/- Shallow embedding of the progress-indicator engine implemented in
   src/components/progress-bar/progress-bar.component.ts.

   Percentages, timestamps and stream values are modelled as real numbers;
   the parsed speed configuration is kept as a rational so that the string
   parser stays executable.  JavaScript truthiness of
   `this.lastAnimationFrame` (`undefined` and `0` both count as "no previous
   frame") is modelled by `timestampFalsy`.  The closures stored in
   `removePendingHandler` and `cleanupSubscription` are modelled by the
   `pendingHandler` and `subscription` slots: running such a closure removes
   the listener / animation-frame request / promise-guard it refers to and
   resets its slot, which is exactly what `removePending` and clearing the
   subscription slot perform.  Promise and observable bindings carry a
   numeric token so that a stale settlement (whose `observing` guard was
   cleared, or whose subscription was unsubscribed) is distinguishable from
   the settlement of the currently bound source: the source invalidates the
   old guard every time `cleanupSubscription` is overwritten, so at any time
   the only binding whose handlers are still live is the one recorded in the
   subscription slot. -/

namespace ProgressBarSpec

/-- Numeric value of a list of decimal digit characters. -/
def digitsToNat (l : List Char) : Nat :=
  l.foldl (fun n c => 10 * n + (c.toNat - 48)) 0

/-- Embedding of `speed.match(/^(\d+(?:\.\d+)?)(ms|s)?$/)` combined with
    `Number.parseFloat(match[1])` from the `speed` setter: returns the parsed
    numeric value of the first capture group and whether the second capture
    group is exactly "s" (`match[2] == 's'`).  The regex is anchored and the
    suffix alternatives contain neither a digit nor a dot, so the greedy
    deterministic scan below is equivalent to the backtracking regex. -/
def matchSpeed (t : String) : Option (ℚ × Bool) :=
  let l := t.data
  let intPart := l.takeWhile Char.isDigit
  let rest := l.dropWhile Char.isDigit
  if intPart.isEmpty then none
  else
    let numAndRest : Option (ℚ × List Char) :=
      match rest with
      | '.' :: r =>
        let fracPart := r.takeWhile Char.isDigit
        if fracPart.isEmpty then none
        else some ((digitsToNat intPart : ℚ) +
                     (digitsToNat fracPart : ℚ) / (10 : ℚ) ^ fracPart.length,
                   r.dropWhile Char.isDigit)
      | _ => some ((digitsToNat intPart : ℚ), rest)
    match numAndRest with
    | none => none
    | some (v, suf) =>
      match suf with
      | [] => some (v, false)
      | ['m', 's'] => some (v, false)
      | ['s'] => some (v, true)
      | _ => none

/-- Input of the `speed` setter: a string, an ordinary number, or NaN
    (a NaN number is rejected by the `!isNaN(speed)` guard). -/
inductive SpeedInput where
  | str (t : String)
  | num (x : ℚ)
  | nan

/-- Which `transitionend` listener or polling animation-frame request the
    `removePendingHandler` closure currently refers to. -/
inductive PendingHandler where
  | noopH
  | wrapper
  | indicator
  | frameWait
  deriving DecidableEq

/-- Which async binding the `cleanupSubscription` closure currently refers
    to.  Bindings are identified by a token so a stale settlement can be
    told apart from the settlement of the current binding. -/
inductive Subscription where
  | noSub
  | promise (id : Nat)
  | stream (id : Nat)
  deriving DecidableEq

/-- The optional argument of `start(promiseOrObservable?)`. -/
inductive StartArg where
  | noArg
  | promiseArg (id : Nat)
  | streamArg (id : Nat)

/-- A JavaScript value delivered by a stream emission, a stream error or a
    promise rejection reason. -/
inductive JSValue where
  | num (x : ℝ)
  | other

/-- Component state of the `ProgressBar` class (its private fields).
    `pendingHandler` models the `removePendingHandler` closure slot and
    `subscription` the `cleanupSubscription` closure slot. -/
structure ProgressBar where
  isActive : Bool
  progressPercentage : ℝ
  progressBarVisible : Bool
  indeterminateSpeed : ℚ
  determinate : Bool
  animationRequest : Bool
  lastAnimationFrame : Option ℝ
  pendingHandler : PendingHandler
  subscription : Subscription

/-- Initial state: the field initializers of the component class. -/
def pbInit : ProgressBar :=
  { isActive := false,
    progressPercentage := 0,
    progressBarVisible := false,
    indeterminateSpeed := 500,
    determinate := false,
    animationRequest := false,
    lastAnimationFrame := none,
    pendingHandler := .noopH,
    subscription := .noSub }

/-- Running the `removePendingHandler` closure: removes the registered
    `transitionend` listener or cancels the pending poll frame, then resets
    the slot to `noop`. -/
def removePending (s : ProgressBar) : ProgressBar :=
  { s with pendingHandler := .noopH }

/-- JavaScript truthiness test `!this.lastAnimationFrame`: `undefined` and a
    `0` timestamp both count as "no previous animation frame". -/
@[reducible] def timestampFalsy (t : Option ℝ) : Prop :=
  t.getD 0 = 0

noncomputable section

/-- Embedding of `fadeOutProgressBar()` up to and including registering the
    wrapper `transitionend` listener; the listener body itself is
    `onWrapperTransitionEnd`. -/
def fadeOutProgressBar (s : ProgressBar) : ProgressBar :=
  let s1 := removePending s
  { s1 with pendingHandler := .wrapper, progressBarVisible := false }

/-- Embedding of `transitionTo100Percent()` up to registering the indicator
    `transitionend` listener (determinate branch) or the polling animation
    frame (non-determinate branch; unreachable from `complete()`, which only
    calls this while `determinate` holds). -/
def transitionTo100Percent (s : ProgressBar) : ProgressBar :=
  let s1 := removePending s
  if s1.determinate then
    { s1 with pendingHandler := .indicator, progressPercentage := 100 }
  else
    { s1 with pendingHandler := .frameWait }

/-- Embedding of `complete()`. -/
def complete (s : ProgressBar) : ProgressBar :=
  if s.isActive then
    let s1 := { s with isActive := false }
    if s1.determinate then
      if s1.progressPercentage = 100 then fadeOutProgressBar s1
      else transitionTo100Percent s1
    else s1
  else s

/-- Embedding of the `progress` input setter. -/
def setProgress (s : ProgressBar) (progress : Option ℝ) : ProgressBar :=
  match progress with
  | none => { s with determinate := false }
  | some p =>
    let s1 := { s with determinate := true }
    let p1 := max 0 (min (100 * p) 100)
    if p1 ≠ s1.progressPercentage then
      if p1 = 100 then complete s1
      else { s1 with progressPercentage := p1 }
    else s1

/-- Embedding of the `speed` input setter. -/
def setSpeed (s : ProgressBar) (speed : SpeedInput) : ProgressBar :=
  match speed with
  | .str t =>
    match matchSpeed t with
    | some (v, secondsSuffix) =>
      { s with indeterminateSpeed := v * (if secondsSuffix then 1000 else 1) }
    | none => s
  | .num x => { s with indeterminateSpeed := x }
  | .nan => s

/-- Embedding of one invocation of `animateIndeterminate()`; `now` is the
    value of `performance.now()` during this invocation. -/
def animateIndeterminate (s : ProgressBar) (now : ℝ) : ProgressBar :=
  let s1 := { s with animationRequest := false }
  if s1.determinate then s1
  else
    let delta := (now - s1.lastAnimationFrame.getD 0) / 1000
    if timestampFalsy s1.lastAnimationFrame then
      { s1 with progressPercentage := 0,
                lastAnimationFrame := some now, animationRequest := true }
    else if s1.isActive then
      let factor := delta * (900 / (s1.indeterminateSpeed : ℝ))
      let percent := s1.progressPercentage +
        factor * (1 - Real.sqrt (100 - s1.progressPercentage)) ^ 2
      { s1 with progressPercentage := max 0 (min 100 percent),
                lastAnimationFrame := some now, animationRequest := true }
    else if s1.progressPercentage < 100 then
      let speed := 900 / (s1.indeterminateSpeed : ℝ)
      let factor := speed + max 0 (1 - speed)
      let percent := s1.progressPercentage + 250 * delta * factor
      { s1 with progressPercentage := max 0 (min 100 percent),
                lastAnimationFrame := some now, animationRequest := true }
    else
      fadeOutProgressBar s1

/-- Delivery of a `requestAnimationFrame` tick of the indeterminate loop:
    only effective while a request is pending (a cancelled request never
    fires). -/
def fireAnimationFrame (s : ProgressBar) (now : ℝ) : ProgressBar :=
  if s.animationRequest then animateIndeterminate s now else s

/-- Subscription slot established by the optional argument of `start`. -/
def bindingOf (arg : StartArg) : Subscription :=
  match arg with
  | .noArg => .noSub
  | .promiseArg i => .promise i
  | .streamArg i => .stream i

/-- Embedding of `start(promiseOrObservable?)`; `now` is the time at which
    the synchronous first `animateIndeterminate()` frame runs, and `arg`
    carries the token identifying the promise or observable passed in. -/
def start (s : ProgressBar) (now : ℝ) (arg : StartArg) : ProgressBar :=
  let s1 := { s with subscription := .noSub }
  let s2 :=
    if s1.isActive then s1
    else
      let t := { s1 with isActive := true, lastAnimationFrame := none,
                         progressBarVisible := true }
      if t.determinate then t
      else animateIndeterminate { t with progressPercentage := 0 } now
  match arg with
  | .noArg => s2
  | .promiseArg i => { s2 with subscription := .promise i }
  | .streamArg i => { s2 with subscription := .stream i }

/-- Resolution handler attached to a bound promise,
    `() => observing && this.complete()`: the binding's `observing` guard is
    true exactly while the binding is still the current subscription,
    because every overwrite of `cleanupSubscription` first runs the previous
    closure, clearing that binding's guard. -/
def promiseResolved (s : ProgressBar) (a : Nat) : ProgressBar :=
  if s.subscription = .promise a then complete s else s

/-- Rejection handler attached to a bound promise; identical to the
    resolution handler, and the rejection reason is ignored. -/
def promiseRejected (s : ProgressBar) (a : Nat) (_reason : JSValue) : ProgressBar :=
  if s.subscription = .promise a then complete s else s

/-- Next-value handler of a bound observable (delivered only while the
    subscription is live). -/
def streamNext (s : ProgressBar) (a : Nat) (v : JSValue) : ProgressBar :=
  if s.subscription = .stream a then
    match v with
    | .num x => setProgress s (some x)
    | .other => s
  else s

/-- Error handler of a bound observable; the error value is ignored. -/
def streamError (s : ProgressBar) (a : Nat) (_error : JSValue) : ProgressBar :=
  if s.subscription = .stream a then complete s else s

/-- Completion handler of a bound observable. -/
def streamCompleted (s : ProgressBar) (a : Nat) : ProgressBar :=
  if s.subscription = .stream a then complete s else s

/-- The wrapper element's `transitionend` listener registered by
    `fadeOutProgressBar` (only effective while registered). -/
def onWrapperTransitionEnd (s : ProgressBar) : ProgressBar :=
  if s.pendingHandler = .wrapper then
    { removePending s with progressPercentage := 0 }
  else s

/-- The indicator element's `transitionend` listener registered by
    `transitionTo100Percent`; its `resolve()` continues, through the promise
    chain inside `complete()`, into `fadeOutProgressBar()`. -/
def onIndicatorTransitionEnd (s : ProgressBar) : ProgressBar :=
  if s.pendingHandler = .indicator then
    fadeOutProgressBar (removePending s)
  else s

/-- One tick of the cancelable `waitUntilDone` polling loop of
    `transitionTo100Percent` (non-determinate branch). -/
def onWaitFrame (s : ProgressBar) : ProgressBar :=
  if s.pendingHandler = .frameWait then
    if s.progressPercentage = 100 then fadeOutProgressBar s else s
  else s

/-- Embedding of `cleanup()` (also the body of `ngOnDestroy`). -/
def cleanup (s : ProgressBar) : ProgressBar :=
  let s1 := if s.animationRequest then { s with animationRequest := false } else s
  let s2 := removePending s1
  { s2 with subscription := .noSub }

/-- Embedding of the `for` input setter. -/
def setFor (s : ProgressBar) (now : ℝ) (arg : StartArg) : ProgressBar :=
  let s1 := cleanup s
  match arg with
  | .noArg => if s1.isActive then complete s1 else s1
  | _ => start { s1 with progressPercentage := 0 } now arg

/-- Embedding of the `active` input setter. -/
def setActive (s : ProgressBar) (now : ℝ) (active : Bool) : ProgressBar :=
  if active && !s.isActive then start s now .noArg
  else if !active && s.isActive then complete s
  else s

/-- A state in the middle of an active determinate cycle. -/
def detState : ProgressBar :=
  { pbInit with isActive := true, determinate := true, progressPercentage := 50 }

/-- A state in the middle of the fade-out of a determinate cycle. -/
def fadingState : ProgressBar :=
  { pbInit with determinate := true, progressPercentage := 100,
                pendingHandler := .wrapper }

/-- An active indeterminate state with one animation frame behind it. -/
def animState : ProgressBar :=
  { pbInit with isActive := true, animationRequest := true,
                lastAnimationFrame := some 1 }

/-- An active determinate state with a live promise binding. -/
def boundState : ProgressBar :=
  { detState with subscription := .promise 0 }

/-- State after `start()` at time 5 from the initial state. -/
def runS1 : ProgressBar :=
  { pbInit with isActive := true, progressBarVisible := true,
                lastAnimationFrame := some 5, animationRequest := true }

/-- State after additionally setting `progress = 0.5`. -/
def runS2 : ProgressBar :=
  { runS1 with determinate := true, progressPercentage := 50 }

/-- State after additionally calling `complete()`. -/
def runS3 : ProgressBar :=
  { runS2 with isActive := false, progressPercentage := 100,
               pendingHandler := .indicator }

/-- State after the indicator `transitionend` fired. -/
def runS4 : ProgressBar :=
  { runS3 with pendingHandler := .wrapper, progressBarVisible := false }

/-- State after the wrapper `transitionend` fired. -/
def runS5 : ProgressBar :=
  { runS4 with pendingHandler := .noopH, progressPercentage := 0 }

/-- State after `start()` at time 5 and then `progress = 0.3`. -/
def runT2 : ProgressBar :=
  { runS1 with determinate := true, progressPercentage := 30 }

/-- State after the pending animation frame observed determinate mode. -/
def runT3 : ProgressBar :=
  { runT2 with animationRequest := false }

/-- Full run: start, switch to determinate, let the loop die, set progress
    back to null. -/
def nullAfterDeterminate : ProgressBar :=
  setProgress
    (fireAnimationFrame (setProgress (start pbInit 5 .noArg) (some (3 / 10))) 6)
    none

/-- Full run: start, progress 0.5, complete, indicator transition end,
    wrapper transition end (the end of the fade-out). -/
def fadeOutCycleEnd : ProgressBar :=
  onWrapperTransitionEnd
    (onIndicatorTransitionEnd (complete (setProgress (start pbInit 5 .noArg) (some (1 / 2)))))

end

/- Helper lemmas: branch characterizations of the embedded operations. -/

lemma fadeOut_eq (s : ProgressBar) :
    fadeOutProgressBar s =
      { s with pendingHandler := .wrapper, progressBarVisible := false } := rfl

lemma trans100_det (s : ProgressBar) (h : s.determinate = true) :
    transitionTo100Percent s =
      { s with pendingHandler := .indicator, progressPercentage := 100 } := by
  simp only [transitionTo100Percent, removePending]
  rw [if_pos h]

lemma complete_inactive_eq (s : ProgressBar) (h : s.isActive = false) :
    complete s = s := by
  simp only [complete]
  rw [if_neg (show ¬ (s.isActive = true) by simp [h])]

lemma complete_indet_eq (s : ProgressBar) (hA : s.isActive = true)
    (hD : s.determinate = false) :
    complete s = { s with isActive := false } := by
  simp only [complete]
  rw [if_pos hA, if_neg (show ¬ (s.determinate = true) by simp [hD])]

lemma complete_det_below_eq (s : ProgressBar) (hA : s.isActive = true)
    (hD : s.determinate = true) (hP : s.progressPercentage ≠ 100) :
    complete s =
      { s with isActive := false, progressPercentage := 100,
               pendingHandler := .indicator } := by
  simp only [complete]
  rw [if_pos hA, if_pos hD, if_neg hP,
      trans100_det _ (show ({ s with isActive := false } : ProgressBar).determinate = true from hD)]

lemma complete_det_at100_eq (s : ProgressBar) (hA : s.isActive = true)
    (hD : s.determinate = true) (hP : s.progressPercentage = 100) :
    complete s =
      { s with isActive := false, pendingHandler := .wrapper,
               progressBarVisible := false } := by
  simp only [complete]
  rw [if_pos hA, if_pos hD, if_pos hP, fadeOut_eq]

lemma complete_preserves_det (s : ProgressBar) :
    (complete s).determinate = s.determinate := by
  simp only [complete, transitionTo100Percent, removePending, fadeOutProgressBar]
  split_ifs <;> rfl

lemma complete_active_deactivates (s : ProgressBar) (h : s.isActive = true) :
    (complete s).isActive = false := by
  simp only [complete, transitionTo100Percent, removePending, fadeOutProgressBar]
  rw [if_pos h]
  split_ifs <;> rfl

lemma setProgress_none_eq (s : ProgressBar) :
    setProgress s none = { s with determinate := false } := rfl

lemma setProgress_filtered (s : ProgressBar) (p : ℝ)
    (h : max 0 (min (100 * p) 100) = s.progressPercentage) :
    setProgress s (some p) = { s with determinate := true } := by
  simp only [setProgress]
  rw [if_neg (not_not_intro h)]

lemma setProgress_complete100 (s : ProgressBar) (p : ℝ)
    (h1 : max 0 (min (100 * p) 100) ≠ s.progressPercentage)
    (h2 : max 0 (min (100 * p) 100) = 100) :
    setProgress s (some p) = complete { s with determinate := true } := by
  simp only [setProgress]
  rw [if_pos h1, if_pos h2]

lemma setProgress_write (s : ProgressBar) (p : ℝ)
    (h1 : max 0 (min (100 * p) 100) ≠ s.progressPercentage)
    (h2 : max 0 (min (100 * p) 100) ≠ 100) :
    setProgress s (some p) =
      { s with determinate := true,
               progressPercentage := max 0 (min (100 * p) 100) } := by
  simp only [setProgress]
  rw [if_pos h1, if_neg h2]

lemma setProgress_some_det (s : ProgressBar) (p : ℝ) :
    (setProgress s (some p)).determinate = true := by
  simp only [setProgress]
  split_ifs with h1 h2
  · rw [complete_preserves_det]
  · rfl
  · rfl

lemma anim_determinate (s : ProgressBar) (now : ℝ) (h : s.determinate = true) :
    animateIndeterminate s now = { s with animationRequest := false } := by
  simp only [animateIndeterminate]
  rw [if_pos h]

lemma anim_first_frame (s : ProgressBar) (now : ℝ) (hD : s.determinate = false)
    (hT : timestampFalsy s.lastAnimationFrame) :
    animateIndeterminate s now =
      { s with progressPercentage := 0, lastAnimationFrame := some now,
               animationRequest := true } := by
  simp only [animateIndeterminate]
  rw [if_neg (show ¬ (s.determinate = true) by simp [hD]), if_pos hT]

lemma anim_active_step (s : ProgressBar) (now : ℝ) (hD : s.determinate = false)
    (hT : ¬ timestampFalsy s.lastAnimationFrame) (hA : s.isActive = true) :
    animateIndeterminate s now =
      { s with
        progressPercentage :=
          max 0 (min 100 (s.progressPercentage +
            ((now - s.lastAnimationFrame.getD 0) / 1000) *
              (900 / (s.indeterminateSpeed : ℝ)) *
              (1 - Real.sqrt (100 - s.progressPercentage)) ^ 2)),
        lastAnimationFrame := some now,
        animationRequest := true } := by
  simp only [animateIndeterminate]
  rw [if_neg (show ¬ (s.determinate = true) by simp [hD]), if_neg hT, if_pos hA]

lemma fire_of_unscheduled (s : ProgressBar) (now : ℝ)
    (h : s.animationRequest = false) : fireAnimationFrame s now = s := by
  simp only [fireAnimationFrame]
  rw [if_neg (show ¬ (s.animationRequest = true) by simp [h])]

lemma set_determinate_self (s : ProgressBar) (h : s.determinate = true) :
    { s with determinate := true } = s := by
  cases s
  subst h
  rfl

lemma clear_animReq_self (s : ProgressBar) (h : s.animationRequest = false) :
    { s with animationRequest := false } = s := by
  cases s
  subst h
  rfl

lemma fire_stops_when_det (s : ProgressBar) (now : ℝ) (h : s.determinate = true) :
    fireAnimationFrame s now = { s with animationRequest := false } := by
  simp only [fireAnimationFrame]
  by_cases hc : s.animationRequest = true
  · rw [if_pos hc]
    exact anim_determinate s now h
  · rw [if_neg hc, clear_animReq_self s (by simpa using hc)]

lemma anim_preserves_sub (s : ProgressBar) (now : ℝ) :
    (animateIndeterminate s now).subscription = s.subscription := by
  simp only [animateIndeterminate, fadeOutProgressBar, removePending]
  split_ifs <;> rfl

lemma start_when_active (s : ProgressBar) (now : ℝ) (arg : StartArg)
    (h : s.isActive = true) :
    start s now arg = { s with subscription := bindingOf arg } := by
  cases arg <;>
    · simp only [start]
      rw [if_pos h]
      rfl

lemma start_fresh_noArg (s : ProgressBar) (now : ℝ) (hA : s.isActive = false)
    (hD : s.determinate = false) :
    start s now .noArg =
      animateIndeterminate
        { s with subscription := .noSub, isActive := true,
                 lastAnimationFrame := none, progressBarVisible := true,
                 progressPercentage := 0 } now := by
  simp only [start]
  rw [if_neg (show ¬ (s.isActive = true) by simp [hA]),
      if_neg (show ¬ (s.determinate = true) by simp [hD])]

lemma start_subscription_eq (s : ProgressBar) (now : ℝ) (arg : StartArg) :
    (start s now arg).subscription = bindingOf arg := by
  cases arg with
  | noArg =>
    simp only [start]
    split_ifs <;> first | rfl | (rw [anim_preserves_sub]; rfl)
  | promiseArg i => rfl
  | streamArg i => rfl

lemma clamp_of_le (x : ℝ) (h0 : 0 ≤ x) (h1 : x ≤ 100) :
    max 0 (min x 100) = x := by
  rw [min_eq_left h1, max_eq_right h0]

/- Evaluation of the concrete run used by the counterexamples. -/

lemma run_start_eq : start pbInit 5 .noArg = runS1 := by
  rw [start_fresh_noArg pbInit 5 rfl rfl,
      anim_first_frame
        { pbInit with subscription := .noSub, isActive := true,
                      lastAnimationFrame := none, progressBarVisible := true,
                      progressPercentage := 0 } 5 rfl rfl]
  rfl

lemma run_half_eq : setProgress runS1 (some (1 / 2)) = runS2 := by
  have hc : max 0 (min ((100 : ℝ) * (1 / 2)) 100) = 50 := by
    rw [show (100 : ℝ) * (1 / 2) = 50 by norm_num]
    exact clamp_of_le 50 (by norm_num) (by norm_num)
  rw [setProgress_write runS1 (1 / 2)
        (by rw [hc]; norm_num [runS1, pbInit])
        (by rw [hc]; norm_num),
      hc]
  rfl

lemma run_complete_eq : complete runS2 = runS3 := by
  rw [complete_det_below_eq runS2 rfl rfl
        (by rw [show runS2.progressPercentage = 50 from rfl]; norm_num)]
  rfl

lemma run_indEnd_eq : onIndicatorTransitionEnd runS3 = runS4 := by
  simp only [onIndicatorTransitionEnd]
  rw [if_pos (show runS3.pendingHandler = PendingHandler.indicator from rfl), fadeOut_eq]
  rfl

lemma run_wrapEnd_eq : onWrapperTransitionEnd runS4 = runS5 := by
  simp only [onWrapperTransitionEnd]
  rw [if_pos (show runS4.pendingHandler = PendingHandler.wrapper from rfl)]
  rfl

lemma run_third_eq : setProgress runS1 (some (3 / 10)) = runT2 := by
  have hc : max 0 (min ((100 : ℝ) * (3 / 10)) 100) = 30 := by
    rw [show (100 : ℝ) * (3 / 10) = 30 by norm_num]
    exact clamp_of_le 30 (by norm_num) (by norm_num)
  rw [setProgress_write runS1 (3 / 10)
        (by rw [hc]; norm_num [runS1, pbInit])
        (by rw [hc]; norm_num),
      hc]
  rfl

lemma run_frame_eq : fireAnimationFrame runT2 6 = runT3 := by
  simp only [fireAnimationFrame]
  rw [if_pos (show runT2.animationRequest = true from rfl),
      anim_determinate _ _ (show runT2.determinate = true from rfl)]
  rfl

/- Claim theorems, counterexamples and witnesses. -/

/-- Claim C1, amended: in every animation frame that runs while the engine is
    active, still indeterminate and a nonzero previous frame timestamp
    exists, with delta the elapsed time in seconds since that frame,
    percentage is updated by exactly
    `delta * (900 / speed) * (1 - sqrt(100 - percentage))^2` and then clamped
    to [0,100], where `speed` is the configured time-to-reach-50% parameter
    (default 500 time-units); a new frame is scheduled and the timestamp
    recorded.  (The growth term of the claim, with
    `sqrt(1 - percentage/100)`, is refuted by
    `claimed_growth_formula_refuted`.) -/
theorem indeterminate_growth_law (s : ProgressBar) (now : ℝ)
    (hD : s.determinate = false) (hT : ¬ timestampFalsy s.lastAnimationFrame)
    (hA : s.isActive = true) :
    animateIndeterminate s now =
      { s with
        progressPercentage :=
          max 0 (min 100 (s.progressPercentage +
            ((now - s.lastAnimationFrame.getD 0) / 1000) *
              (900 / (s.indeterminateSpeed : ℝ)) *
              (1 - Real.sqrt (100 - s.progressPercentage)) ^ 2)),
        lastAnimationFrame := some now,
        animationRequest := true }
    ∧ pbInit.indeterminateSpeed = 500 :=
  ⟨anim_active_step s now hD hT hA, rfl⟩

/-- Witness for `indeterminate_growth_law` at a concrete state. -/
theorem indeterminate_growth_law_witness :
    (animState.determinate = false
      ∧ ¬ timestampFalsy animState.lastAnimationFrame
      ∧ animState.isActive = true)
  ∧ (animateIndeterminate animState 2 =
      { animState with
        progressPercentage :=
          max 0 (min 100 (animState.progressPercentage +
            ((2 - animState.lastAnimationFrame.getD 0) / 1000) *
              (900 / (animState.indeterminateSpeed : ℝ)) *
              (1 - Real.sqrt (100 - animState.progressPercentage)) ^ 2)),
        lastAnimationFrame := some 2,
        animationRequest := true }
      ∧ pbInit.indeterminateSpeed = 500) :=
  ⟨⟨rfl, by norm_num [timestampFalsy, animState, pbInit], rfl⟩,
   indeterminate_growth_law animState 2 rfl
     (by norm_num [timestampFalsy, animState, pbInit]) rfl⟩

/-- Counterexample to claim C1 as stated: at an active indeterminate state
    with percentage 0 the claimed update law
    `percentage += delta * speedFactor * (1 - sqrt(1 - percentage/100))^2`
    yields 0, but the code advances the percentage (its growth term is
    `(1 - sqrt(100 - percentage))^2`). -/
theorem claimed_growth_formula_refuted :
    (animateIndeterminate animState 2).progressPercentage ≠
      max 0 (min 100 (animState.progressPercentage +
        ((2 - 1) / 1000) * (900 / 500) *
          (1 - Real.sqrt (1 - animState.progressPercentage / 100)) ^ 2)) := by
  have h10 : Real.sqrt 100 = 10 := by
    rw [show (100 : ℝ) = 10 ^ 2 by norm_num]
    exact Real.sqrt_sq (by norm_num)
  have hL : (animateIndeterminate animState 2).progressPercentage = 729 / 5000 := by
    rw [anim_active_step animState 2 rfl
          (by norm_num [timestampFalsy, animState, pbInit]) rfl]
    show max 0 (min 100 (animState.progressPercentage +
        ((2 - animState.lastAnimationFrame.getD 0) / 1000) *
          (900 / (animState.indeterminateSpeed : ℝ)) *
          (1 - Real.sqrt (100 - animState.progressPercentage)) ^ 2)) = 729 / 5000
    rw [show animState.progressPercentage = 0 from rfl,
        show animState.lastAnimationFrame.getD 0 = 1 from rfl,
        show (animState.indeterminateSpeed : ℝ) = 500 by norm_num [animState, pbInit],
        show (100 : ℝ) - 0 = 100 by norm_num, h10,
        show (0 : ℝ) + (2 - 1) / 1000 * (900 / 500) * (1 - 10) ^ 2 = 729 / 5000 by norm_num,
        min_eq_right (by norm_num : (729 / 5000 : ℝ) ≤ 100),
        max_eq_right (by norm_num : (0 : ℝ) ≤ 729 / 5000)]
  have hR : max 0 (min 100 (animState.progressPercentage +
      ((2 - 1) / 1000) * (900 / 500) *
        (1 - Real.sqrt (1 - animState.progressPercentage / 100)) ^ 2)) = 0 := by
    rw [show animState.progressPercentage = 0 from rfl,
        show (1 : ℝ) - 0 / 100 = 1 by norm_num, Real.sqrt_one,
        show (0 : ℝ) + (2 - 1) / 1000 * (900 / 500) * (1 - 1) ^ 2 = 0 by norm_num,
        min_eq_right (by norm_num : (0 : ℝ) ≤ 100), max_eq_right le_rfl]
  rw [hL, hR]
  norm_num

/-- Claim C2, amended: when the wrapper element's transition-end notification
    fires during the fade-out, the pending listener is removed and percentage
    is reset to 0; `visible` keeps the value `false` it was given when the
    fade-out began; the mode is left unchanged — it is NOT reset to
    Indeterminate (refuted by `mode_not_reset_after_fadeout`). -/
theorem fadeout_finish_state (s : ProgressBar)
    (h : s.pendingHandler = PendingHandler.wrapper) :
    onWrapperTransitionEnd s =
      { s with pendingHandler := .noopH, progressPercentage := 0 }
  ∧ (onWrapperTransitionEnd s).progressBarVisible = s.progressBarVisible
  ∧ (onWrapperTransitionEnd s).determinate = s.determinate
  ∧ ∀ u : ProgressBar, (fadeOutProgressBar u).progressBarVisible = false := by
  have key : onWrapperTransitionEnd s =
      { s with pendingHandler := .noopH, progressPercentage := 0 } := by
    simp only [onWrapperTransitionEnd, removePending]
    rw [if_pos h]
  exact ⟨key, by rw [key], by rw [key], fun u => by rw [fadeOut_eq]⟩

/-- Witness for `fadeout_finish_state` at a concrete fading state. -/
theorem fadeout_finish_state_witness :
    fadingState.pendingHandler = PendingHandler.wrapper
  ∧ onWrapperTransitionEnd fadingState =
      { fadingState with pendingHandler := .noopH, progressPercentage := 0 }
  ∧ (fadeOutProgressBar pbInit).progressBarVisible = false :=
  ⟨rfl, (fadeout_finish_state fadingState rfl).1,
   (fadeout_finish_state fadingState rfl).2.2.2 pbInit⟩

/-- Counterexample to claim C2 as stated: a full determinate completion cycle
    (start, progress 0.5, complete, indicator transition end, wrapper
    transition end) leaves the mode Determinate; it is not reset to the
    Indeterminate default. -/
theorem mode_not_reset_after_fadeout : fadeOutCycleEnd.determinate = true := by
  have key : fadeOutCycleEnd = runS5 := by
    unfold fadeOutCycleEnd
    rw [run_start_eq, run_half_eq, run_complete_eq, run_indEnd_eq, run_wrapEnd_eq]
  rw [key]
  rfl

/-- Claim C3, amended: setting the progress input to null switches the mode
    back to Indeterminate but schedules no animation frame (the slot holding
    the frame request is unchanged); consequently, if the indeterminate loop
    has already observed Determinate mode and stopped, the state — and in
    particular the percentage — stays frozen under animation-frame delivery
    (resumption as claimed is refuted by `progress_null_no_reschedule`). -/
theorem progress_null_mode_switch (s : ProgressBar) (now : ℝ)
    (h : s.animationRequest = false) :
    setProgress s none = { s with determinate := false }
  ∧ (setProgress s none).animationRequest = s.animationRequest
  ∧ fireAnimationFrame (setProgress s none) now = setProgress s none := by
  exact ⟨rfl, rfl, fire_of_unscheduled _ now h⟩

/-- Witness for `progress_null_mode_switch` at a concrete state. -/
theorem progress_null_mode_switch_witness :
    runT3.animationRequest = false
  ∧ (setProgress runT3 none = { runT3 with determinate := false }
      ∧ (setProgress runT3 none).animationRequest = runT3.animationRequest
      ∧ fireAnimationFrame (setProgress runT3 none) 7 = setProgress runT3 none) :=
  ⟨rfl, progress_null_mode_switch runT3 7 rfl⟩

/-- Counterexample to claim C3 as stated: after a determinate value let the
    indeterminate loop die (the pending frame observes Determinate mode and
    does not reschedule); setting progress to null then switches the mode
    back to Indeterminate, but no per-frame animation callback is scheduled
    again, and frame delivery leaves the state unchanged. -/
theorem progress_null_no_reschedule :
    nullAfterDeterminate.determinate = false
  ∧ nullAfterDeterminate.animationRequest = false
  ∧ fireAnimationFrame nullAfterDeterminate 7 = nullAfterDeterminate := by
  have key : nullAfterDeterminate = { runT3 with determinate := false } := by
    unfold nullAfterDeterminate
    rw [run_start_eq, run_third_eq, run_frame_eq]
    rfl
  refine ⟨by rw [key]; try rfl, by rw [key]; try rfl, ?_⟩
  rw [key]
  exact fire_of_unscheduled _ 7 rfl

/-- Claim C4, amended: for every fraction f in [0,1] with f ≠ 1, setting the
    progress input to f yields percentage = 100*f exactly (no rounding; the
    rounded version is refuted by `progress_fraction_rounding_refuted`) and
    Determinate mode; setting f = 1 on an engine whose percentage is not
    already 100 delegates to `complete()`, which on an active engine starts
    the completion sequence (active becomes false) instead of storing 100. -/
theorem progress_fraction_spec (s : ProgressBar) (f : ℝ)
    (h0 : 0 ≤ f) (h1 : f ≤ 1) (hne : f ≠ 1)
    (t : ProgressBar) (ht : t.progressPercentage ≠ 100) (htA : t.isActive = true) :
    (setProgress s (some f)).progressPercentage = 100 * f
  ∧ (setProgress s (some f)).determinate = true
  ∧ setProgress t (some 1) = complete { t with determinate := true }
  ∧ (setProgress t (some 1)).isActive = false := by
  have hcl : max 0 (min (100 * f) 100) = 100 * f := by
    rw [min_eq_left (by linarith), max_eq_right (by linarith)]
  have hne100 : 100 * f ≠ 100 := by
    intro hcon
    apply hne
    linarith
  have hfirst : (setProgress s (some f)).progressPercentage = 100 * f := by
    by_cases hc : 100 * f = s.progressPercentage
    · rw [setProgress_filtered s f (by rw [hcl]; exact hc)]
      exact hc.symm
    · rw [setProgress_write s f (by rw [hcl]; exact hc) (by rw [hcl]; exact hne100)]
      exact hcl
  have hcl1 : max 0 (min ((100 : ℝ) * 1) 100) = 100 := by
    rw [mul_one, min_self]
    exact max_eq_right (by norm_num)
  have hthird : setProgress t (some 1) = complete { t with determinate := true } :=
    setProgress_complete100 t 1 (by rw [hcl1]; exact Ne.symm ht) hcl1
  refine ⟨hfirst, setProgress_some_det s f, hthird, ?_⟩
  rw [hthird]
  exact complete_active_deactivates _
    (show ({ t with determinate := true }).isActive = true from htA)

/-- Witness for `progress_fraction_spec` at f = 1/2 and a concrete active
    determinate state. -/
theorem progress_fraction_spec_witness :
    ((0 : ℝ) ≤ 1 / 2 ∧ (1 / 2 : ℝ) ≤ 1 ∧ (1 / 2 : ℝ) ≠ 1
      ∧ detState.progressPercentage ≠ 100 ∧ detState.isActive = true)
  ∧ ((setProgress pbInit (some (1 / 2))).progressPercentage = 100 * (1 / 2)
      ∧ (setProgress pbInit (some (1 / 2))).determinate = true
      ∧ setProgress detState (some 1) = complete { detState with determinate := true }
      ∧ (setProgress detState (some 1)).isActive = false) :=
  ⟨⟨by norm_num, by norm_num, by norm_num, by norm_num [detState, pbInit], rfl⟩,
   progress_fraction_spec pbInit (1 / 2) (by norm_num) (by norm_num) (by norm_num)
     detState (by norm_num [detState, pbInit]) rfl⟩

/-- Counterexample to claim C4 as stated: at f = 1/200 the code stores
    percentage 0.5 = 100*f, which differs from round(100*f) = 1. -/
theorem progress_fraction_rounding_refuted :
    (setProgress pbInit (some (1 / 200))).progressPercentage ≠
      ((round ((100 : ℝ) * (1 / 200)) : ℤ) : ℝ) := by
  have hcl : max 0 (min ((100 : ℝ) * (1 / 200)) 100) = 1 / 2 := by
    rw [show (100 : ℝ) * (1 / 200) = 1 / 2 by norm_num]
    exact clamp_of_le (1 / 2) (by norm_num) (by norm_num)
  have hL : (setProgress pbInit (some (1 / 200))).progressPercentage = 1 / 2 := by
    rw [setProgress_write pbInit (1 / 200)
          (by rw [hcl]; norm_num [pbInit])
          (by rw [hcl]; norm_num)]
    exact hcl
  have hR : ((round ((100 : ℝ) * (1 / 200)) : ℤ) : ℝ) = 1 := by
    rw [show (100 : ℝ) * (1 / 200) = 1 / 2 by norm_num, round_eq,
        show (1 / 2 + 1 / 2 : ℝ) = 1 by norm_num, Int.floor_one]
    norm_num
  rw [hL, hR]
  norm_num

/-- Claim C5: a settlement (resolution or rejection) of a promise binding
    that is no longer the current subscription — because it was replaced by a
    newer binding or torn down — never invokes `complete()` and leaves the
    engine state unchanged; only the settlement of the most recently bound
    source can affect state. -/
theorem stale_promise_settlement_ignored (s : ProgressBar) (a b : Nat)
    (now : ℝ) (r : JSValue)
    (hcur : s.subscription ≠ Subscription.promise a) (hab : a ≠ b) :
    promiseResolved s a = s
  ∧ promiseRejected s a r = s
  ∧ promiseResolved (start s now (.promiseArg b)) a = start s now (.promiseArg b)
  ∧ promiseRejected (start s now (.promiseArg b)) a r = start s now (.promiseArg b)
  ∧ promiseResolved (cleanup s) a = cleanup s := by
  have hb : ¬ ((start s now (.promiseArg b)).subscription = Subscription.promise a) := by
    rw [start_subscription_eq,
        show bindingOf (StartArg.promiseArg b) = Subscription.promise b from rfl]
    intro hcon
    injection hcon with hba
    exact hab hba.symm
  have hcl : ¬ ((cleanup s).subscription = Subscription.promise a) := by
    rw [show (cleanup s).subscription = Subscription.noSub from rfl]
    simp
  refine ⟨?_, ?_, ?_, ?_, ?_⟩
  · simp only [promiseResolved]
    rw [if_neg hcur]
  · simp only [promiseRejected]
    rw [if_neg hcur]
  · simp only [promiseResolved]
    rw [if_neg hb]
  · simp only [promiseRejected]
    rw [if_neg hb]
  · simp only [promiseResolved]
    rw [if_neg hcl]

/-- Witness for `stale_promise_settlement_ignored` at a concrete state with a
    live binding 0 and stale token 1. -/
theorem stale_promise_settlement_ignored_witness :
    boundState.subscription ≠ Subscription.promise 1
  ∧ (1 : Nat) ≠ 2
  ∧ (promiseResolved boundState 1 = boundState
      ∧ promiseRejected boundState 1 .other = boundState
      ∧ promiseResolved (start boundState 0 (.promiseArg 2)) 1 =
          start boundState 0 (.promiseArg 2)
      ∧ promiseRejected (start boundState 0 (.promiseArg 2)) 1 .other =
          start boundState 0 (.promiseArg 2)
      ∧ promiseResolved (cleanup boundState) 1 = cleanup boundState) :=
  ⟨by decide, by decide,
   stale_promise_settlement_ignored boundState 1 2 0 .other (by decide) (by decide)⟩

/-- Claim C6: a non-null progress update always puts the engine in
    Determinate mode; if the new clamped value equals the stored percentage
    while already Determinate the state is left entirely unchanged; if it
    differs and clamps to 100 the update delegates to `complete()` instead of
    storing 100; otherwise the clamped value is stored; and in every case the
    indeterminate loop is stopped: a subsequently delivered animation frame
    clears the frame request and changes nothing else. -/
theorem progress_update_transitions (s : ProgressBar) (v : ℝ)
    (hD : s.determinate = true)
    (hEq : max 0 (min (100 * v) 100) = s.progressPercentage) :
    setProgress s (some v) = s
  ∧ (∀ (u : ProgressBar) (w : ℝ),
      (setProgress u (some w)).determinate = true
      ∧ setProgress u (some w) =
          (if max 0 (min (100 * w) 100) = u.progressPercentage then
             { u with determinate := true }
           else if max 0 (min (100 * w) 100) = 100 then
             complete { u with determinate := true }
           else
             { u with determinate := true,
                      progressPercentage := max 0 (min (100 * w) 100) })
      ∧ ∀ m : ℝ, fireAnimationFrame (setProgress u (some w)) m =
          { setProgress u (some w) with animationRequest := false }) := by
  constructor
  · rw [setProgress_filtered s v hEq, set_determinate_self s hD]
  · intro u w
    refine ⟨setProgress_some_det u w, ?_,
            fun m => fire_stops_when_det _ m (setProgress_some_det u w)⟩
    by_cases hc1 : max 0 (min (100 * w) 100) = u.progressPercentage
    · rw [if_pos hc1, setProgress_filtered u w hc1]
    · by_cases hc2 : max 0 (min (100 * w) 100) = 100
      · rw [if_neg hc1, if_pos hc2, setProgress_complete100 u w hc1 hc2]
      · rw [if_neg hc1, if_neg hc2, setProgress_write u w hc1 hc2]

/-- Witness for `progress_update_transitions` at a determinate state with
    percentage 50 and a no-op update 0.5. -/
theorem progress_update_transitions_witness :
    detState.determinate = true
  ∧ max 0 (min ((100 : ℝ) * (1 / 2)) 100) = detState.progressPercentage
  ∧ setProgress detState (some (1 / 2)) = detState
  ∧ (setProgress pbInit (some (3 / 10))).determinate = true := by
  have hEq : max 0 (min ((100 : ℝ) * (1 / 2)) 100) = detState.progressPercentage := by
    rw [show (100 : ℝ) * (1 / 2) = 50 by norm_num]
    rw [clamp_of_le 50 (by norm_num) (by norm_num)]
    rfl
  exact ⟨rfl, hEq, (progress_update_transitions detState (1 / 2) rfl hEq).1,
    ((progress_update_transitions detState (1 / 2) rfl hEq).2 pbInit (3 / 10)).1⟩

/-- Claim C7: the speed setter accepts a plain non-NaN number directly (NaN
    is ignored) or a string of the shape number(ms|s)?, where the "s" suffix
    multiplies by 1000 — "1s" yields 1000 and "500ms" yields 500; every
    string that does not match the pattern leaves the previous speed value
    unchanged, and no error is raised (the setter is a total function). -/
theorem speed_setter_spec (s : ProgressBar) (x : ℚ) (t : String)
    (h : matchSpeed t = none) :
    (setSpeed s (.num x)).indeterminateSpeed = x
  ∧ setSpeed s .nan = s
  ∧ (setSpeed s (.str "1s")).indeterminateSpeed = 1000
  ∧ (setSpeed s (.str "500ms")).indeterminateSpeed = 500
  ∧ setSpeed s (.str t) = s := by
  refine ⟨rfl, rfl, ?_, ?_, ?_⟩
  · have hm : matchSpeed "1s" = some ((1 : ℚ), true) := by decide
    simp only [setSpeed, hm]
    norm_num
  · have hm : matchSpeed "500ms" = some ((500 : ℚ), false) := by decide
    simp only [setSpeed, hm]
    norm_num
  · simp only [setSpeed, h]

/-- Witness for `speed_setter_spec` with the non-matching string "abc". -/
theorem speed_setter_spec_witness :
    matchSpeed "abc" = none
  ∧ ((setSpeed pbInit (.num 7)).indeterminateSpeed = 7
      ∧ setSpeed pbInit .nan = pbInit
      ∧ (setSpeed pbInit (.str "1s")).indeterminateSpeed = 1000
      ∧ (setSpeed pbInit (.str "500ms")).indeterminateSpeed = 500
      ∧ setSpeed pbInit (.str "abc") = pbInit) :=
  ⟨by decide, speed_setter_spec pbInit 7 "abc" (by decide)⟩

/-- Claim C8: calling `start()` again while already active leaves `active`,
    `visible` and `percentage` exactly as they were just before the call,
    while still establishing the async binding passed to it after the
    previous binding has been torn down (the subscription slot afterwards
    holds exactly the new binding). -/
theorem start_reentry_idempotent (s : ProgressBar) (now : ℝ) (arg : StartArg)
    (h : s.isActive = true) :
    (start s now arg).isActive = s.isActive
  ∧ (start s now arg).progressBarVisible = s.progressBarVisible
  ∧ (start s now arg).progressPercentage = s.progressPercentage
  ∧ (start s now arg).subscription = bindingOf arg := by
  rw [start_when_active s now arg h]
  exact ⟨rfl, rfl, rfl, rfl⟩

/-- Witness for `start_reentry_idempotent` at a concrete active state. -/
theorem start_reentry_idempotent_witness :
    detState.isActive = true
  ∧ ((start detState 0 (.promiseArg 3)).isActive = detState.isActive
      ∧ (start detState 0 (.promiseArg 3)).progressBarVisible = detState.progressBarVisible
      ∧ (start detState 0 (.promiseArg 3)).progressPercentage = detState.progressPercentage
      ∧ (start detState 0 (.promiseArg 3)).subscription = bindingOf (.promiseArg 3)) :=
  ⟨rfl, start_reentry_idempotent detState 0 (.promiseArg 3) rfl⟩

/-- Claim C9: settlement with failure is treated exactly like successful
    settlement — the rejection handler of a bound promise equals its
    resolution handler and the error handler of a bound stream equals its
    completion handler — and the failure reason is never inspected (the
    handlers do not depend on it). -/
theorem settlement_failure_symmetric (s : ProgressBar) (a : Nat)
    (r r' : JSValue) :
    promiseRejected s a r = promiseResolved s a
  ∧ promiseRejected s a r = promiseRejected s a r'
  ∧ streamError s a r = streamCompleted s a
  ∧ streamError s a r = streamError s a r' :=
  ⟨rfl, rfl, rfl, rfl⟩

/-- Claim C10: calling `complete()` while the engine is inactive is a
    complete no-op: the whole state — active, visible, percentage, mode,
    speed, and every pending handle — is unchanged, and no transition or
    fade-out is initiated. -/
theorem complete_noop_when_inactive (s : ProgressBar) (h : s.isActive = false) :
    complete s = s :=
  complete_inactive_eq s h

/-- Witness for `complete_noop_when_inactive` at the initial state. -/
theorem complete_noop_when_inactive_witness :
    pbInit.isActive = false ∧ complete pbInit = pbInit :=
  ⟨rfl, complete_noop_when_inactive pbInit rfl⟩

end ProgressBarSpec
